import Mathlib

/-!
Verification of the retrieval-and-decision pipeline of the semantic-chatbot
repository (src/app/main.py, src/app/faiss_store.py, src/app/embedding.py,
src/app/utils.py, src/build_index.py).

Strings are modelled as `List Char` for the normalization primitives and as
`String` for whole chunks and queries; similarity scores and thresholds are
modelled as `ℚ` (the claims under study concern comparisons and control flow,
not floating-point rounding).
-/

/-- Python whitespace characters, as matched by `str.strip`, `str.split()` and
the regex class `\s` (space, tab, newline, carriage return, vertical tab,
form feed). -/
def pyIsSpace (c : Char) : Bool :=
  c = ' ' || c = '\t' || c = '\n' || c = '\r' || c = '\x0b' || c = '\x0c'

/-- Python word characters, the regex class `\w`: alphanumeric or underscore
(ASCII model). -/
def pyIsWordChar (c : Char) : Bool :=
  c.isAlphanum || c = '_'

/-- Python `str.strip()`: drop leading and trailing whitespace. -/
def pyStrip (s : List Char) : List Char :=
  ((s.dropWhile pyIsSpace).reverse.dropWhile pyIsSpace).reverse

/-- Python `str.lower()` (ASCII model). -/
def pyLower (s : List Char) : List Char :=
  s.map Char.toLower

/-- `re.sub(r'[^\w\s]', '', s)` from `is_greeting` in src/app/main.py:
delete every character that is neither a word character nor whitespace. -/
def removePunct (s : List Char) : List Char :=
  s.filter (fun c => pyIsWordChar c || pyIsSpace c)

/-- Helper for `collapseWs`: the Bool records whether the previous kept
character position was inside a whitespace run. -/
def collapseWsAux (prevSpace : Bool) : List Char → List Char
  | [] => []
  | c :: rest =>
    if pyIsSpace c then
      if prevSpace then collapseWsAux true rest
      else ' ' :: collapseWsAux true rest
    else c :: collapseWsAux false rest

/-- `re.sub(r'\s+', ' ', s)` from `is_greeting` in src/app/main.py: replace
each maximal whitespace run by a single space. -/
def collapseWs (s : List Char) : List Char :=
  collapseWsAux false s

/-- Helper for `pyWords`: `cur` is the reversed current word. -/
def pyWordsAux (cur : List Char) : List Char → List (List Char)
  | [] => if cur.isEmpty then [] else [cur.reverse]
  | c :: rest =>
    if pyIsSpace c then
      if cur.isEmpty then pyWordsAux [] rest
      else cur.reverse :: pyWordsAux [] rest
    else pyWordsAux (c :: cur) rest

/-- Python `str.split()` with no argument: the whitespace-delimited words,
with no empty words. -/
def pyWords (s : List Char) : List (List Char) :=
  pyWordsAux [] s

/-- `GREETING_PATTERNS` from src/app/main.py (a Python set; modelled as a
list, the code only tests membership and existence). -/
def GREETING_PATTERNS : List String :=
  ["hi", "hii", "hiii", "hello", "helo", "hellow", "hey", "heya",
   "good morning", "good afternoon", "good evening", "good night",
   "morning", "afternoon", "evening", "night",
   "namaste", "namaskar", "namaskaram",
   "howdy", "greetings", "sup", "wassup", "whatsup", "yo",
   "hai", "haii", "hlo", "hlw"]

/-- `UNRELATED_TOPICS` from src/app/main.py. -/
def UNRELATED_TOPICS : List String :=
  ["coding", "programming", "python", "java", "javascript", "html", "css", "c++",
   "software", "website", "app development", "machine learning", "ai course",
   "weather", "news", "cricket", "football", "movie", "song", "music",
   "recipe", "cooking", "food", "restaurant",
   "college", "university", "degree", "mbbs", "engineering entrance", "neet",
   "upsc", "ssc", "bank exam", "government job",
   "joke", "story", "game", "play"]

/-- The normalization performed at the top of `is_greeting` in
src/app/main.py: `text.lower().strip()`, then strip punctuation and strip
again, then collapse whitespace runs to single spaces. -/
def normalizeGreeting (text : List Char) : List Char :=
  collapseWs (pyStrip (removePunct (pyStrip (pyLower text))))

/-- `is_greeting` from src/app/main.py: the normalized query exact-matches a
greeting pattern, or it has at most 3 words and starts with a pattern. -/
def is_greeting (text : List Char) : Bool :=
  if (GREETING_PATTERNS.map String.toList).contains (normalizeGreeting text) then true
  else
    if (pyWords (normalizeGreeting text)).length ≤ 3 then
      (GREETING_PATTERNS.map String.toList).any (fun g => g.isPrefixOf (normalizeGreeting text))
    else false

/-- Python substring test `pat in s`: `pat` occurs contiguously in `s`. -/
def pyContains (pat : List Char) : List Char → Bool
  | [] => pat.isEmpty
  | c :: rest => pat.isPrefixOf (c :: rest) || pyContains pat rest

/-- `is_unrelated_topic` from src/app/main.py: the lowercased raw query
contains some unrelated-topic marker as a substring. -/
def is_unrelated_topic (text : List Char) : Bool :=
  UNRELATED_TOPICS.any (fun t => pyContains t.toList (pyLower text))

/-- `SIMILARITY_THRESHOLD` from src/app/main.py (base threshold). -/
def SIMILARITY_THRESHOLD : ℚ := 0.20

/-- `STRICT_THRESHOLD` from src/app/main.py (for queries of fewer than
3 words). -/
def STRICT_THRESHOLD : ℚ := 0.22

/-- `TOP_K` from src/app/main.py. -/
def TOP_K : Nat := 5

/-- `GREETING_RESPONSE` from src/app/main.py. The exact wording is
immaterial to the claims, which only track which constant is returned;
the source string's non-ASCII glyphs are elided here. -/
def GREETING_RESPONSE : String :=
  "Hello Welcome to Nova - My Mentor, your trusted digital learning companion. How can I help you today?"

/-- `FALLBACK_RESPONSE` from src/app/main.py (apostrophes of the source
string elided; only the identity of the constant matters to the claims). -/
def FALLBACK_RESPONSE : String :=
  "I dont have specific information about that in my knowledge base. To give you accurate guidance, I can connect you with our support team. Would you like that?"

/-- `CLARIFICATION_RESPONSE` from src/app/main.py (apostrophe elided). -/
def CLARIFICATION_RESPONSE : String :=
  "Could you please provide more details about what youd like to know about Nova - My Mentor?"

/-- The explanatory-word list from `select_best_answer` in src/app/main.py. -/
def explanatory_words : List String :=
  ["is", "are", "helps", "provides", "supports", "includes", "offers", "designed", "can", "allows"]

/-- The per-candidate quality score of `select_best_answer` in
src/app/main.py: start from the similarity score, add 0.03 if the chunk is
longer than 80 characters and a further 0.02 if longer than 150, add 0.02
if it contains an explanatory word, subtract 0.1 if it ends with a colon
and 0.05 if it has fewer than 6 words. -/
def quality_score (chunk : String) (score : ℚ) : ℚ :=
  score
  + (if chunk.toList.length > 80 then 0.03 else 0)
  + (if chunk.toList.length > 150 then 0.02 else 0)
  + (if explanatory_words.any (fun w => pyContains w.toList (pyLower chunk.toList)) then 0.02 else 0)
  - (if (pyStrip chunk.toList).getLast? = some ':' then 0.1 else 0)
  - (if (pyWords chunk.toList).length < 6 then 0.05 else 0)

/-- The quality score of a (chunk, score) candidate pair. -/
def qualPair (p : String × ℚ) : ℚ :=
  quality_score p.1 p.2

/-- The threshold choice of `select_best_answer` in src/app/main.py:
the strict threshold when the query has fewer than 3 whitespace-delimited
words, the base threshold otherwise. -/
def gateThreshold (query : String) : ℚ :=
  if (pyWords query.toList).length < 3 then STRICT_THRESHOLD else SIMILARITY_THRESHOLD

/-- The near-top band of `select_best_answer` in src/app/main.py: the
candidates whose score is at least `threshold * 0.95`. -/
def nearTopBand (results : List (String × ℚ)) (query : String) : List (String × ℚ) :=
  results.filter (fun p => gateThreshold query * 0.95 ≤ p.2)

/-- The selection loop of `select_best_answer` in src/app/main.py: scan the
candidates, keeping the first one whose quality score strictly exceeds the
running best (initially 0, with the top chunk as initial answer). -/
def selectLoop (l : List (String × ℚ)) (best : String) (bestQ : ℚ) : String × ℚ :=
  match l with
  | [] => (best, bestQ)
  | p :: rest =>
    let q := qualPair p
    if q > bestQ then selectLoop rest p.1 q else selectLoop rest best bestQ

/-- `select_best_answer` from src/app/main.py. `results` is the list of
(chunk, similarity score) pairs, sorted by score descending; returns
(answer, confidence, is confident). -/
def select_best_answer (results : List (String × ℚ)) (query : String) : String × ℚ × Bool :=
  match results with
  | [] => (FALLBACK_RESPONSE, 0, false)
  | (best_chunk, best_score) :: _ =>
    let threshold := gateThreshold query
    if best_score < threshold then (FALLBACK_RESPONSE, best_score, false)
    else
      match nearTopBand results query with
      | [] => (FALLBACK_RESPONSE, best_score, false)
      | _ :: _ =>
        let r := selectLoop (nearTopBand results query) best_chunk 0
        (r.1, best_score, true)

/-- Errors raised by the Python code, as values. -/
inductive PyError
  | nameError : String → PyError
  | runtimeError : String → PyError
deriving DecidableEq, Repr

/-- `embed_text` from src/app/embedding.py: unconditionally raises
RuntimeError (the embedding model is disabled in this deployment). -/
def embed_text (_texts : List String) : Except PyError (List (List ℚ)) :=
  .error (.runtimeError "Embedding is disabled on Render Free plan. FAISS index is prebuilt locally.")

/-- `search_top_k` from src/app/faiss_store.py: unconditionally raises
RuntimeError (the index search is disabled in this deployment). -/
def search_top_k (_query_vector : List ℚ) (_chunks : List String) (_k : Nat) :
    Except PyError (List (String × ℚ)) :=
  .error (.runtimeError "search_top_k() requires embeddings and is disabled on Render Free.")

/-- The `model.encode(question)` step of `smart_search` in src/app/main.py,
line 200. main.py imports `model` from app.embedding, but
src/app/embedding.py defines no `model` (only the raising stub
`embed_text`), so the name is unresolvable; the step is modelled as the
error it raises. -/
def modelEncode (_question : String) : Except PyError (List ℚ) :=
  .error (.nameError "name model is not defined")

/-- `smart_search` from src/app/main.py: greeting bypass, unrelated-topic
check, too-short check, then encode + top-k retrieval + answer selection.
The chunk store is passed explicitly (in the source it is the module-level
`chunks` global). Returns (answer, was greeting, confidence, is confident),
or the error the retrieval path raises. -/
def smart_search (chunks : List String) (question : String) :
    Except PyError (String × Bool × ℚ × Bool) :=
  if is_greeting question.toList then .ok (GREETING_RESPONSE, true, 1, true)
  else if is_unrelated_topic question.toList then .ok (FALLBACK_RESPONSE, false, 0, false)
  else if (pyStrip question.toList).length < 2 then .ok (CLARIFICATION_RESPONSE, false, 0, false)
  else do
    let query_vector ← modelEncode question
    let results ← search_top_k query_vector chunks TOP_K
    let r := select_best_answer results question
    .ok (r.1, false, r.2.1, r.2.2)

/-- The maxsize of the `lru_cache` on `cached_smart_search` in
src/app/main.py. -/
def CACHE_MAXSIZE : Nat := 1000

/-- The state of the `lru_cache` wrapping `cached_smart_search` in
src/app/main.py: the cached entries (most recently used first) and the
hit/miss counters exposed by `cache_info()`. -/
structure CacheState where
  entries : List (String × (String × Bool × ℚ × Bool))
  hits : Nat
  misses : Nat
deriving Repr

/-- `cached_smart_search` from src/app/main.py: `smart_search` memoized by
an LRU cache of capacity `CACHE_MAXSIZE`. A hit moves the entry to the
front and bumps the hit counter; a miss computes, inserts at the front and
trims to capacity. -/
def cached_smart_search (chunks : List String) (st : CacheState) (question : String) :
    Except PyError ((String × Bool × ℚ × Bool) × CacheState) :=
  match st.entries.lookup question with
  | some v =>
    .ok (v, { entries := (question, v) :: st.entries.eraseP (fun p => p.1 == question),
              hits := st.hits + 1, misses := st.misses })
  | none =>
    match smart_search chunks question with
    | .error e => .error e
    | .ok v =>
      .ok (v, { entries := ((question, v) :: st.entries).take CACHE_MAXSIZE,
                hits := st.hits, misses := st.misses + 1 })

/-- The cache-key normalization of `get_answer` in src/app/main.py:
`question.lower().strip()`. -/
def normQuery (q : String) : String :=
  String.mk (pyStrip (pyLower q.toList))

/-- `get_answer` from src/app/main.py: call the cached search on the
normalized query and report whether the hit counter advanced (the `cached`
flag of the response). -/
def get_answer (chunks : List String) (st : CacheState) (question : String) :
    Except PyError ((String × Bool × ℚ × Bool) × CacheState) :=
  match cached_smart_search chunks st (normQuery question) with
  | .error e => .error e
  | .ok ((answer, _wasGreeting, confidence, isConf), st1) =>
    .ok ((answer, decide (st.hits < st1.hits), confidence, isConf), st1)

/-- Helper for `splitOnNl`: `cur` is the reversed current piece. -/
def splitOnNlAux (cur : List Char) : List Char → List (List Char)
  | [] => [cur.reverse]
  | c :: rest =>
    if c = '\n' then cur.reverse :: splitOnNlAux [] rest
    else splitOnNlAux (c :: cur) rest

/-- Python `s.split("\n")`: the pieces between newlines, empties kept. -/
def splitOnNl (s : List Char) : List (List Char) :=
  splitOnNlAux [] s

/-- The line-based chunking of `chunk_text` in src/app/utils.py:
strip the text, split on newlines, strip each line, keep nonempty lines. -/
def chunkLines (text : List Char) : List (List Char) :=
  ((splitOnNl (pyStrip text)).map pyStrip).filter (fun l => !l.isEmpty)

/-- The sliding-window `while` loop of `chunk_text` in src/app/utils.py,
with explicit fuel: from `start`, take `chunk_size` characters, strip,
append when nonempty, and advance to `max(start + chunk_size - overlap, 0)`
(truncated subtraction on `Nat` equals that maximum). `none` means the fuel
ran out with the loop still running. -/
def chunkLoop (text : List Char) (chunk_size overlap : Nat) : Nat → Nat → Option (List (List Char))
  | 0, start => if start < text.length then none else some []
  | fuel + 1, start =>
    if start < text.length then
      let chunk := pyStrip ((text.drop start).take chunk_size)
      match chunkLoop text chunk_size overlap fuel (start + chunk_size - overlap) with
      | none => none
      | some cs => some (if chunk.isEmpty then cs else chunk :: cs)
    else some []

/-- `chunk_text` from src/app/utils.py (source defaults: chunk_size = 400,
overlap = 50): empty text gives no chunks; at least 3 nonempty lines gives
line-based chunks; otherwise the sliding-window loop, run with the given
fuel. -/
def chunk_text (fuel : Nat) (text : List Char) (chunk_size overlap : Nat) : Option (List (List Char)) :=
  if text.isEmpty then some []
  else
    if 3 ≤ (chunkLines text).length then some (chunkLines text)
    else chunkLoop text chunk_size overlap fuel 0

/-- Helper for `alnumWords`: `cur` is the reversed current word. -/
def alnumWordsAux (cur : List Char) : List Char → List (List Char)
  | [] => if cur.isEmpty then [] else [cur.reverse]
  | c :: rest =>
    if c.isAlphanum then alnumWordsAux (c :: cur) rest
    else if cur.isEmpty then alnumWordsAux [] rest
    else cur.reverse :: alnumWordsAux [] rest

/-- The maximal alphanumeric words of a character list. -/
def alnumWords (s : List Char) : List (List Char) :=
  alnumWordsAux [] s

/-- Modelled from the spec: the tuning parameters of the lexical retrieval
mode of spec section 4.2 (stop-word set, chunk-length threshold and fixed
score bonus), whose concrete values the source snapshot does not contain
(src/app/faiss_store.py ships only a disabled stub for `search_top_k`). -/
structure LexParams where
  stopWords : List (List Char)
  lengthThreshold : Nat
  lengthBonus : ℚ

/-- Modelled from the spec: tokenize a text into the set of its lowercase
alphanumeric words minus the stop-word set (spec section 4.2, lexical
mode). -/
def lexTokenize (stop : List (List Char)) (s : List Char) : List (List Char) :=
  ((alnumWords (pyLower s)).dedup).filter (fun w => !stop.contains w)

/-- Modelled from the spec: the lexical-mode score of one chunk for a
query token set — overlap ratio = |query tokens ∩ chunk tokens| /
|query tokens|, plus the fixed bonus when the chunk is longer than the
length threshold; paired with the raw overlap count used for ties. -/
def lexScore (p : LexParams) (qtokens : List (List Char)) (chunk : String) : ℚ × Nat :=
  let ctokens := lexTokenize p.stopWords chunk.toList
  let overlapCount := (qtokens.filter (fun t => ctokens.contains t)).length
  let ratio : ℚ := (overlapCount : ℚ) / (qtokens.length : ℚ)
  let score := if p.lengthThreshold < chunk.toList.length then ratio + p.lengthBonus else ratio
  (score, overlapCount)

/-- Modelled from the spec: the ranking order of lexical mode — score
descending, ties broken by raw overlap count descending. -/
def lexRel (a b : String × ℚ × Nat) : Prop :=
  b.2.1 < a.2.1 ∨ (a.2.1 = b.2.1 ∧ b.2.2 ≤ a.2.2)

instance : DecidableRel lexRel := fun a b => by
  unfold lexRel
  infer_instance

instance : IsTotal (String × ℚ × Nat) lexRel := by
  constructor
  intro a b
  rcases lt_trichotomy a.2.1 b.2.1 with h | h | h
  · exact Or.inr (Or.inl h)
  · rcases le_total b.2.2 a.2.2 with h2 | h2
    · exact Or.inl (Or.inr ⟨h, h2⟩)
    · exact Or.inr (Or.inr ⟨h.symm, h2⟩)
  · exact Or.inl (Or.inl h)

instance : IsTrans (String × ℚ × Nat) lexRel := by
  constructor
  intro a b c hab hbc
  rcases hab with h1 | ⟨h1, h1c⟩
  · rcases hbc with h2 | ⟨h2, _⟩
    · exact Or.inl (h2.trans h1)
    · exact Or.inl (h2 ▸ h1)
  · rcases hbc with h2 | ⟨h2, h2c⟩
    · exact Or.inl (h1 ▸ h2)
    · exact Or.inr ⟨h1.trans h2, h2c.trans h1c⟩

/-- Modelled from the spec: the lexical retrieval mode of spec section 4.2,
absent from the source snapshot (`search_top_k` in src/app/faiss_store.py
is a disabled stub raising RuntimeError). Tokenize the query; if its token
set is empty after stop-word removal return the empty sequence; otherwise
score every chunk, order by score descending with raw-overlap-count
tie-break, and return the top k. -/
def lexicalTopK (p : LexParams) (query : String) (chunks : List String) (k : Nat) :
    List (String × ℚ × Nat) :=
  if (lexTokenize p.stopWords query.toList).isEmpty then []
  else
    ((chunks.map (fun c => (c, lexScore p (lexTokenize p.stopWords query.toList) c))).insertionSort
      lexRel).take k

/-- Helper: list membership gives a true `contains` test. -/
theorem contains_of_mem {l : List (List Char)} {x : List Char} (h : x ∈ l) :
    l.contains x = true := by
  simpa [List.contains] using List.elem_eq_true_of_mem h

/-- Helper: `smart_search` on a greeting returns the Greeting verdict. -/
theorem smart_search_of_greeting (chunks : List String) (q : String)
    (hg : is_greeting q.toList = true) :
    smart_search chunks q = .ok (GREETING_RESPONSE, true, 1, true) := by
  unfold smart_search
  rw [hg]
  rfl

/-- C5: for every query whose normalized form exact-matches one of the fixed
greeting phrases, `smart_search` returns the Greeting verdict: the fixed
greeting response, the greeting flag, confidence 1.0 and the confident flag,
for every chunk store. -/
theorem greeting_exact_verdict (chunks : List String) (q : String)
    (h : normalizeGreeting q.toList ∈ GREETING_PATTERNS.map String.toList) :
    smart_search chunks q = .ok (GREETING_RESPONSE, true, 1, true) := by
  apply smart_search_of_greeting
  unfold is_greeting
  rw [contains_of_mem h]
  rfl

/-- C5 witness: the query "Hello!!" normalizes to the greeting phrase
"hello" and gets the Greeting verdict on an empty chunk store. -/
theorem greeting_exact_verdict_witness :
    smart_search [] "Hello!!" = .ok (GREETING_RESPONSE, true, 1, true) :=
  greeting_exact_verdict [] "Hello!!" (by decide)

/-- C6: `is_greeting` holds exactly when the normalized query exact-matches a
greeting phrase, or has at most 3 words and starts with a greeting phrase as
a string prefix; and the Greeting check precedes the UnrelatedTopic check in
`smart_search`: a query satisfying both conditions gets the Greeting
verdict. -/
theorem greeting_classifier (chunks : List String) (q : String) :
    (is_greeting q.toList = true ↔
      (normalizeGreeting q.toList ∈ GREETING_PATTERNS.map String.toList ∨
        ((pyWords (normalizeGreeting q.toList)).length ≤ 3 ∧
          ∃ g ∈ GREETING_PATTERNS, g.toList.isPrefixOf (normalizeGreeting q.toList) = true))) ∧
    (is_greeting q.toList = true → is_unrelated_topic q.toList = true →
      smart_search chunks q = .ok (GREETING_RESPONSE, true, 1, true)) := by
  constructor
  · unfold is_greeting
    split_ifs with h1 h2
    · simp only [true_iff]
      left
      simpa [List.contains, List.elem_iff] using h1
    · rw [List.any_eq_true]
      constructor
      · rintro ⟨g, hgmem, hpre⟩
        rcases List.mem_map.mp hgmem with ⟨g0, hg0, rfl⟩
        exact Or.inr ⟨h2, g0, hg0, hpre⟩
      · rintro (hmem | ⟨_, g0, hg0, hpre⟩)
        · exact absurd (contains_of_mem hmem) h1
        · exact ⟨g0.toList, List.mem_map_of_mem String.toList hg0, hpre⟩
    · simp only [false_iff]
      rintro (hmem | ⟨hlen, _⟩)
      · exact absurd (contains_of_mem hmem) h1
      · exact h2 hlen
  · intro hg _
    exact smart_search_of_greeting chunks q hg

/-- C6 witness: "hi python" satisfies the prefix greeting condition and
contains the unrelated-topic marker "python", and gets the Greeting
verdict. -/
theorem greeting_classifier_witness :
    smart_search [] "hi python" = .ok (GREETING_RESPONSE, true, 1, true) :=
  (greeting_classifier [] "hi python").2 (by decide) (by decide)

/-- C7: a query containing an unrelated-topic marker as a substring of its
lowercased raw text, and not classified Greeting first, gets the Fallback
verdict with confidence 0.0, for every chunk store (so with no index
lookup and no error). -/
theorem unrelated_topic_fallback (chunks : List String) (q : String)
    (hg : is_greeting q.toList = false) (hu : is_unrelated_topic q.toList = true) :
    smart_search chunks q = .ok (FALLBACK_RESPONSE, false, 0, false) := by
  unfold smart_search
  rw [hg, hu]
  rfl

/-- C7 witness: "tell me a joke" contains the marker "joke", is not a
greeting, and gets the Fallback verdict with confidence 0. -/
theorem unrelated_topic_fallback_witness :
    smart_search [] "tell me a joke" = .ok (FALLBACK_RESPONSE, false, 0, false) :=
  unrelated_topic_fallback [] "tell me a joke" (by decide) (by decide)

/-- C1 (failing input): the well-formed retrieval-candidate query
"what is nova" makes `smart_search` raise instead of returning a Verdict:
main.py line 200 evaluates `model.encode`, but src/app/embedding.py defines
no `model` (and `search_top_k` in src/app/faiss_store.py is a stub that
raises RuntimeError unconditionally), so the pipeline propagates an error
to the caller rather than degrading to lexical retrieval. -/
theorem pipeline_raises_on_retrieval_query :
    smart_search ["Nova provides personalized mentoring for students."] "what is nova" =
      .error (PyError.nameError "name model is not defined") := by
  rfl

/-- C3: the gate threshold is the strict threshold for queries of fewer
than 3 whitespace-delimited words and the base threshold otherwise, with
strict > base; and whenever the candidate list is empty or its top score is
below that threshold, `select_best_answer` returns the Fallback response
and the not-confident flag, unconditionally. -/
theorem confidence_gate (results : List (String × ℚ)) (query : String)
    (h : results = [] ∨ ∃ c s rest, results = (c, s) :: rest ∧ s < gateThreshold query) :
    (SIMILARITY_THRESHOLD < STRICT_THRESHOLD ∧
      gateThreshold query =
        (if (pyWords query.toList).length < 3 then STRICT_THRESHOLD else SIMILARITY_THRESHOLD)) ∧
    (select_best_answer results query).1 = FALLBACK_RESPONSE ∧
    (select_best_answer results query).2.2 = false := by
  refine ⟨⟨by norm_num [SIMILARITY_THRESHOLD, STRICT_THRESHOLD], rfl⟩, ?_⟩
  rcases h with rfl | ⟨c, s, rest, rfl, hs⟩
  · exact ⟨rfl, rfl⟩
  · simp only [select_best_answer]
    rw [if_pos hs]
    exact ⟨rfl, rfl⟩

/-- C3 witness: one candidate scoring 0.1 against a 3-word query (base
threshold 0.20) fails the gate and yields the Fallback response. -/
theorem confidence_gate_witness :
    (select_best_answer [("x", 0.1)] "hello there friend").1 = FALLBACK_RESPONSE ∧
    (select_best_answer [("x", 0.1)] "hello there friend").2.2 = false :=
  (confidence_gate [("x", 0.1)] "hello there friend"
    (Or.inr ⟨"x", 0.1, [], rfl, by
      have h3 : ¬ (pyWords (String.toList "hello there friend")).length < 3 := by decide
      unfold gateThreshold
      rw [if_neg h3]
      norm_num [SIMILARITY_THRESHOLD]⟩)).2

/-- Helper: the gate threshold is nonnegative (it is one of the two
positive constants). -/
theorem gateThreshold_nonneg (query : String) : 0 ≤ gateThreshold query := by
  unfold gateThreshold
  split <;> norm_num [STRICT_THRESHOLD, SIMILARITY_THRESHOLD]

/-- Helper: a top candidate passing the gate is in the near-top band, which
is therefore nonempty and headed by it. -/
theorem nearTopBand_cons (c : String) (s : ℚ) (rest : List (String × ℚ)) (query : String)
    (h : gateThreshold query ≤ s) :
    nearTopBand ((c, s) :: rest) query =
      (c, s) :: rest.filter (fun p => gateThreshold query * 0.95 ≤ p.2) := by
  have hmem : gateThreshold query * 0.95 ≤ s :=
    le_trans (by nlinarith [gateThreshold_nonneg query]) h
  unfold nearTopBand
  rw [List.filter_cons_of_pos]
  exact decide_eq_true hmem

/-- C9: whenever the top candidate's score meets the gate threshold, the
confidence returned by `select_best_answer` is exactly that top score (and
the confident flag is set), whichever chunk of the near-top band is chosen
as the answer. -/
theorem confidence_is_top_score (c : String) (s : ℚ) (rest : List (String × ℚ)) (query : String)
    (h : gateThreshold query ≤ s) :
    (select_best_answer ((c, s) :: rest) query).2.1 = s ∧
    (select_best_answer ((c, s) :: rest) query).2.2 = true := by
  simp only [select_best_answer]
  rw [if_neg (not_lt.mpr h), nearTopBand_cons c s rest query h]
  exact ⟨rfl, rfl⟩

/-- C9 witness: a single candidate scoring 0.5 against a 4-word query
passes the gate and the returned confidence is 0.5. -/
theorem confidence_is_top_score_witness :
    (select_best_answer [("Nova provides mentoring", 0.5)] "what is nova platform").2.1 = 0.5 ∧
    (select_best_answer [("Nova provides mentoring", 0.5)] "what is nova platform").2.2 = true :=
  confidence_is_top_score "Nova provides mentoring" 0.5 [] "what is nova platform" (by
    have h4 : ¬ (pyWords (String.toList "what is nova platform")).length < 3 := by decide
    unfold gateThreshold
    rw [if_neg h4]
    norm_num [SIMILARITY_THRESHOLD])

/-- Helper: the quality score is at least the similarity score minus the
two penalties (0.1 + 0.05). -/
theorem quality_score_lb (chunk : String) (score : ℚ) :
    score - 0.15 ≤ quality_score chunk score := by
  unfold quality_score
  split_ifs <;> linarith

/-- Helper: the selection loop of `select_best_answer` either keeps its
initial answer and running score (when no candidate beats the initial
score), or returns the first candidate whose quality score is maximal:
its quality beats the initial score, is at least every candidate quality,
and strictly exceeds every earlier candidate quality. -/
theorem selectLoop_spec (l : List (String × ℚ)) (best : String) (q0 : ℚ) :
    (selectLoop l best q0 = (best, q0) ∧
      ∀ j (hj : j < l.length), qualPair (l.get ⟨j, hj⟩) ≤ q0) ∨
    (∃ i, ∃ hi : i < l.length,
      selectLoop l best q0 = ((l.get ⟨i, hi⟩).1, qualPair (l.get ⟨i, hi⟩)) ∧
      q0 < qualPair (l.get ⟨i, hi⟩) ∧
      (∀ j (hj : j < l.length), qualPair (l.get ⟨j, hj⟩) ≤ qualPair (l.get ⟨i, hi⟩)) ∧
      (∀ j (hj : j < l.length), j < i →
        qualPair (l.get ⟨j, hj⟩) < qualPair (l.get ⟨i, hi⟩))) := by
  induction l generalizing best q0 with
  | nil =>
    left
    exact ⟨rfl, fun j hj => absurd hj (Nat.not_lt_zero j)⟩
  | cons p rest ih =>
    by_cases hq : q0 < qualPair p
    · have hstep : selectLoop (p :: rest) best q0 = selectLoop rest p.1 (qualPair p) := by
        simp [selectLoop, hq]
      rcases ih p.1 (qualPair p) with ⟨heq, hall⟩ | ⟨i, hi, heq, hgt, hall, hbef⟩
      · right
        refine ⟨0, Nat.succ_pos _, ?_, hq, ?_, ?_⟩
        · exact hstep.trans (heq.trans rfl)
        · intro j hj
          cases j with
          | zero => exact le_refl _
          | succ j => exact hall j (Nat.lt_of_succ_lt_succ hj)
        · intro j hj hj0
          exact absurd hj0 (Nat.not_lt_zero j)
      · right
        refine ⟨i + 1, Nat.succ_lt_succ hi, ?_, lt_trans hq hgt, ?_, ?_⟩
        · exact hstep.trans (heq.trans rfl)
        · intro j hj
          cases j with
          | zero => exact le_of_lt hgt
          | succ j => exact hall j (Nat.lt_of_succ_lt_succ hj)
        · intro j hj hj0
          cases j with
          | zero => exact hgt
          | succ j => exact hbef j (Nat.lt_of_succ_lt_succ hj) (Nat.lt_of_succ_lt_succ hj0)
    · have hstep : selectLoop (p :: rest) best q0 = selectLoop rest best q0 := by
        simp [selectLoop, hq]
      have hple : qualPair p ≤ q0 := le_of_not_lt hq
      rcases ih best q0 with ⟨heq, hall⟩ | ⟨i, hi, heq, hgt, hall, hbef⟩
      · left
        refine ⟨hstep.trans heq, ?_⟩
        intro j hj
        cases j with
        | zero => exact hple
        | succ j => exact hall j (Nat.lt_of_succ_lt_succ hj)
      · right
        refine ⟨i + 1, Nat.succ_lt_succ hi, ?_, hgt, ?_, ?_⟩
        · exact hstep.trans (heq.trans rfl)
        · intro j hj
          cases j with
          | zero => exact le_of_lt (lt_of_le_of_lt hple hgt)
          | succ j => exact hall j (Nat.lt_of_succ_lt_succ hj)
        · intro j hj hj0
          cases j with
          | zero => exact lt_of_le_of_lt hple hgt
          | succ j => exact hbef j (Nat.lt_of_succ_lt_succ hj) (Nat.lt_of_succ_lt_succ hj0)

/-- C4: when the gate passes, `select_best_answer` returns a chunk of the
near-top band (all candidates scoring at least threshold * 0.95): the one
at the first position attaining the maximal quality score (so quality ties
keep the earlier — higher-similarity, by the descending sort — candidate),
together with the top score and the confident flag; and that chunk's
similarity score is at most the score of every earlier band member. -/
theorem answer_selector_quality (c : String) (s : ℚ) (rest : List (String × ℚ)) (query : String)
    (hsorted : ((c, s) :: rest).Pairwise (fun a b => b.2 ≤ a.2))
    (hs : gateThreshold query ≤ s) :
    ∃ i, ∃ hi : i < (nearTopBand ((c, s) :: rest) query).length,
      select_best_answer ((c, s) :: rest) query =
        (((nearTopBand ((c, s) :: rest) query).get ⟨i, hi⟩).1, s, true) ∧
      (∀ j (hj : j < (nearTopBand ((c, s) :: rest) query).length),
        qualPair ((nearTopBand ((c, s) :: rest) query).get ⟨j, hj⟩) ≤
          qualPair ((nearTopBand ((c, s) :: rest) query).get ⟨i, hi⟩)) ∧
      (∀ j (hj : j < (nearTopBand ((c, s) :: rest) query).length), j < i →
        qualPair ((nearTopBand ((c, s) :: rest) query).get ⟨j, hj⟩) <
          qualPair ((nearTopBand ((c, s) :: rest) query).get ⟨i, hi⟩)) ∧
      (∀ j (hj : j < (nearTopBand ((c, s) :: rest) query).length), j ≤ i →
        ((nearTopBand ((c, s) :: rest) query).get ⟨i, hi⟩).2 ≤
          ((nearTopBand ((c, s) :: rest) query).get ⟨j, hj⟩).2) := by
  have hband : nearTopBand ((c, s) :: rest) query =
      (c, s) :: rest.filter (fun p => gateThreshold query * 0.95 ≤ p.2) :=
    nearTopBand_cons c s rest query hs
  have hsel : select_best_answer ((c, s) :: rest) query =
      ((selectLoop (nearTopBand ((c, s) :: rest) query) c 0).1, s, true) := by
    simp only [select_best_answer]
    rw [if_neg (not_lt.mpr hs), hband]
  have hs19 : (0.19 : ℚ) ≤ s :=
    le_trans (by unfold gateThreshold; split <;> norm_num [STRICT_THRESHOLD, SIMILARITY_THRESHOLD]) hs
  have hq0 : 0 < qualPair (c, s) := by
    have hlb := quality_score_lb c s
    unfold qualPair
    linarith
  have hp : (nearTopBand ((c, s) :: rest) query).Pairwise (fun a b => b.2 ≤ a.2) :=
    List.Pairwise.filter _ hsorted
  rw [hsel, hband]
  rw [hband] at hp
  rcases selectLoop_spec
      ((c, s) :: rest.filter (fun p => gateThreshold query * 0.95 ≤ p.2)) c 0 with
    ⟨heq, hall⟩ | ⟨i, hi, heq, hgt, hall, hbef⟩
  · exfalso
    exact absurd (hall 0 (Nat.succ_pos _)) (not_le.mpr hq0)
  · refine ⟨i, hi, ?_, hall, hbef, ?_⟩
    · rw [heq]
    · intro j hj hji
      rcases Nat.lt_or_ge j i with hjlt | hige
      · exact List.pairwise_iff_get.mp hp ⟨j, hj⟩ ⟨i, hi⟩ hjlt
      · have : j = i := le_antisymm hji hige
        subst this
        exact le_refl _

/-- C4 witness: two band candidates, scores 0.5 and 0.45, against a 4-word
query; the theorem applies and the selector returns a band member together
with the top score 0.5 and the confident flag. -/
theorem answer_selector_quality_witness :
    ∃ i, ∃ hi : i < (nearTopBand
        [("Nova provides personalized mentoring for students and parents.", 0.5),
         ("Contact:", 0.45)] "what is nova mentor").length,
      select_best_answer
        [("Nova provides personalized mentoring for students and parents.", 0.5),
         ("Contact:", 0.45)] "what is nova mentor" =
        (((nearTopBand
            [("Nova provides personalized mentoring for students and parents.", 0.5),
             ("Contact:", 0.45)] "what is nova mentor").get ⟨i, hi⟩).1, 0.5, true) := by
  obtain ⟨i, hi, h1, _, _, _⟩ :=
    answer_selector_quality "Nova provides personalized mentoring for students and parents." 0.5
      [("Contact:", 0.45)] "what is nova mentor"
      (by norm_num [List.pairwise_cons])
      (by
        have h4 : ¬ (pyWords (String.toList "what is nova mentor")).length < 3 := by decide
        unfold gateThreshold
        rw [if_neg h4]
        norm_num [SIMILARITY_THRESHOLD])
  exact ⟨i, hi, h1⟩

/-- Helper: a cache miss computes `smart_search`, inserts the entry at the
front, trims to capacity, and bumps the miss counter. -/
theorem cached_miss (chunks : List String) (st : CacheState) (k : String)
    (v : String × Bool × ℚ × Bool)
    (hmiss : st.entries.lookup k = none) (hok : smart_search chunks k = .ok v) :
    cached_smart_search chunks st k =
      .ok (v, ⟨((k, v) :: st.entries).take CACHE_MAXSIZE, st.hits, st.misses + 1⟩) := by
  simp only [cached_smart_search]
  rw [hmiss, hok]

/-- Helper: a cache hit returns the stored verdict, moves the entry to the
front, and bumps the hit counter. -/
theorem cached_hit (chunks : List String) (st : CacheState) (k : String)
    (v : String × Bool × ℚ × Bool)
    (hlk : st.entries.lookup k = some v) :
    cached_smart_search chunks st k =
      .ok (v, ⟨(k, v) :: st.entries.eraseP (fun p => p.1 == k), st.hits + 1, st.misses⟩) := by
  simp only [cached_smart_search]
  rw [hlk]

/-- Helper: `get_answer` forwards the cached verdict, replacing the
greeting flag by the cached flag (the hit counter advanced). -/
theorem get_answer_eq (chunks : List String) (st : CacheState) (q : String)
    (r : String × Bool × ℚ × Bool) (st1 : CacheState)
    (h : cached_smart_search chunks st (normQuery q) = .ok (r, st1)) :
    get_answer chunks st q =
      .ok ((r.1, decide (st.hits < st1.hits), r.2.2.1, r.2.2.2), st1) := by
  obtain ⟨a, wg, conf, ic⟩ := r
  simp only [get_answer]
  rw [h]

/-- C8: calling the pipeline twice with the same query (hence the same
normalized cache key) on an unchanged chunk store, starting from a state
not holding that key, yields identical verdicts — same answer, confidence
and confident flag — except for the cached flag, which is false on the
first call and true on the second. -/
theorem pipeline_idempotent (chunks : List String) (st : CacheState) (q : String)
    (v : String × Bool × ℚ × Bool)
    (hmiss : st.entries.lookup (normQuery q) = none)
    (hok : smart_search chunks (normQuery q) = .ok v) :
    ∃ st1 st2,
      get_answer chunks st q = .ok ((v.1, false, v.2.2.1, v.2.2.2), st1) ∧
      get_answer chunks st1 q = .ok ((v.1, true, v.2.2.1, v.2.2.2), st2) := by
  have h1 := cached_miss chunks st (normQuery q) v hmiss hok
  have hfirst := get_answer_eq chunks st q v _ h1
  have hlk : (((normQuery q, v) :: st.entries).take CACHE_MAXSIZE).lookup (normQuery q) =
      some v := by
    rw [show CACHE_MAXSIZE = 999 + 1 from rfl, List.take_succ_cons]
    simp [List.lookup]
  have h2 := cached_hit chunks
    ⟨((normQuery q, v) :: st.entries).take CACHE_MAXSIZE, st.hits, st.misses + 1⟩
    (normQuery q) v hlk
  have hsecond := get_answer_eq chunks
    ⟨((normQuery q, v) :: st.entries).take CACHE_MAXSIZE, st.hits, st.misses + 1⟩ q v _ h2
  refine ⟨⟨((normQuery q, v) :: st.entries).take CACHE_MAXSIZE, st.hits, st.misses + 1⟩,
    ⟨(normQuery q, v) :: (((normQuery q, v) :: st.entries).take CACHE_MAXSIZE).eraseP
        (fun p => p.1 == normQuery q), st.hits + 1, st.misses + 1⟩, ?_, ?_⟩
  · rw [hfirst]
    simp
  · rw [hsecond]
    simp

/-- C8 witness: the query "Hi" on an empty cache — the first call misses
(cached flag false), the second hits (cached flag true), with the same
Greeting verdict both times. -/
theorem pipeline_idempotent_witness :
    ∃ st1 st2,
      get_answer [] ⟨[], 0, 0⟩ "Hi" = .ok ((GREETING_RESPONSE, false, 1, true), st1) ∧
      get_answer [] st1 "Hi" = .ok ((GREETING_RESPONSE, true, 1, true), st2) :=
  pipeline_idempotent [] ⟨[], 0, 0⟩ "Hi" (GREETING_RESPONSE, true, 1, true) rfl rfl

/-- Helper: when overlap < chunk size, the window start strictly increases,
so fuel covering the remaining length makes the sliding-window loop
finish. -/
theorem chunkLoop_isSome (text : List Char) (cs ov : Nat) (hov : ov < cs) :
    ∀ (fuel start : Nat), text.length ≤ start + fuel →
      (chunkLoop text cs ov fuel start).isSome = true := by
  intro fuel
  induction fuel with
  | zero =>
    intro start hle
    simp only [chunkLoop]
    rw [if_neg (Nat.not_lt.mpr (by omega))]
    rfl
  | succ fuel ih =>
    intro start hle
    simp only [chunkLoop]
    by_cases hlt : start < text.length
    · rw [if_pos hlt]
      have hle2 : text.length ≤ (start + cs - ov) + fuel := by omega
      cases hsome : chunkLoop text cs ov fuel (start + cs - ov) with
      | none =>
        have := ih (start + cs - ov) hle2
        rw [hsome] at this
        simp at this
      | some l =>
        rfl
    · rw [if_neg hlt]
      rfl

/-- Helper: when overlap ≥ chunk size, the window start never increases, so
the loop never finishes from a position inside the text, whatever the
fuel. -/
theorem chunkLoop_stuck (text : List Char) (cs ov : Nat) (hov : cs ≤ ov) :
    ∀ (fuel start : Nat), start < text.length →
      chunkLoop text cs ov fuel start = none := by
  intro fuel
  induction fuel with
  | zero =>
    intro start hlt
    simp only [chunkLoop]
    rw [if_pos hlt]
  | succ fuel ih =>
    intro start hlt
    simp only [chunkLoop]
    rw [if_pos hlt, ih (start + cs - ov) (by omega)]

/-- C10: `chunk_text` terminates for every text when overlap < chunk size
(the source defaults 400/50 satisfy this): fuel equal to the text length
suffices for the sliding window, whose start advances by chunk size minus
overlap each iteration; and when overlap ≥ chunk size the window does not
advance, so on any nonempty text taking the sliding-window path the loop
never finishes, whatever the fuel. -/
theorem chunk_text_termination :
    (∀ (text : List Char) (cs ov : Nat), ov < cs →
      (chunk_text text.length text cs ov).isSome = true) ∧
    (∀ (text : List Char) (cs ov fuel : Nat), cs ≤ ov → text ≠ [] →
      (chunkLines text).length < 3 → chunk_text fuel text cs ov = none) := by
  constructor
  · intro text cs ov hov
    unfold chunk_text
    split_ifs with h1 h2
    · rfl
    · rfl
    · exact chunkLoop_isSome text cs ov hov text.length 0 (by omega)
  · intro text cs ov fuel hov hne hlines
    unfold chunk_text
    rw [if_neg (fun h => hne (List.isEmpty_iff.mp h)), if_neg (Nat.not_le.mpr hlines)]
    exact chunkLoop_stuck text cs ov hov fuel 0 (List.length_pos.mpr hne)

/-- C10 witness: "hello" with the source defaults 400/50 terminates within
fuel 5 = its length; with chunk size 2 and overlap 2 the loop never
finishes (fuel 9 shown). -/
theorem chunk_text_termination_witness :
    (chunk_text 5 "hello".toList 400 50).isSome = true ∧
    chunk_text 9 "hello".toList 2 2 = none :=
  ⟨chunk_text_termination.1 "hello".toList 400 50 (by decide),
   chunk_text_termination.2 "hello".toList 2 2 9 (by decide) (by decide) (by decide)⟩

/-- C2 (modelled from the spec): the lexical retrieval mode returns the
empty sequence when the query token set is empty after stop-word removal;
returns at most k results; orders them by score descending with raw
overlap count breaking score ties descending; and every returned candidate
is a stored chunk carrying the overlap-ratio-plus-length-bonus score of
the spec. -/
theorem lexical_mode_contract (p : LexParams) (q : String) (chunks : List String) (k : Nat) :
    (lexTokenize p.stopWords q.toList = [] → lexicalTopK p q chunks k = []) ∧
    (lexicalTopK p q chunks k).length ≤ k ∧
    List.Sorted lexRel (lexicalTopK p q chunks k) ∧
    (∀ e ∈ lexicalTopK p q chunks k,
      e.1 ∈ chunks ∧ e.2 = lexScore p (lexTokenize p.stopWords q.toList) e.1) := by
  refine ⟨?_, ?_, ?_, ?_⟩
  · intro h
    unfold lexicalTopK
    rw [if_pos (by rw [h]; rfl)]
  · unfold lexicalTopK
    split_ifs
    · simp
    · exact List.length_take_le _ _
  · unfold lexicalTopK
    split_ifs
    · exact List.sorted_nil
    · exact List.Pairwise.sublist (List.take_sublist _ _)
        (List.sorted_insertionSort lexRel _)
  · intro e he
    unfold lexicalTopK at he
    split_ifs at he
    · exact absurd he (List.not_mem_nil e)
    · have h2 := List.mem_of_mem_take he
      have h3 := (List.perm_insertionSort lexRel _).subset h2
      rcases List.mem_map.mp h3 with ⟨c, hc, rfl⟩
      exact ⟨hc, rfl⟩

/-- C2 witness: a query made only of stop words tokenizes to the empty set
and lexical retrieval returns the empty sequence. -/
theorem lexical_mode_contract_witness :
    lexicalTopK ⟨["what".toList, "is".toList], 40, 0.05⟩ "what is"
      ["Nova provides mentoring."] 5 = [] :=
  (lexical_mode_contract ⟨["what".toList, "is".toList], 40, 0.05⟩ "what is"
    ["Nova provides mentoring."] 5).1 (by decide)
